import Mathlib

/-
Verification of the AlphaEarth-Risk damage-analysis backend (src/app.py).

The program is a Flask endpoint over Google Earth Engine (GEE).  We shallowly
embed the analysis pipeline:

 * a raster is a finite list of pixels; each pixel carries its ground area
   (the value of ee.Image.pixelArea() at that pixel) and, for single-band
   rasters, an optional band value (`none` = the pixel is masked);
 * source (Sentinel-2) images carry the bands the program reads (B3, B4, B8),
   an acquisition timestamp (system:time_start, modelled as an integer),
   a reported cloud percentage (CLOUDY_PIXEL_PERCENTAGE) and an `inBounds`
   flag (whether the image intersects the area of interest, i.e. whether
   filterBounds keeps it);
 * the GEE provider state consulted by one request is a `Provider`:
   the image catalog, the geometric area of the buffered point
   (aoi.area().getInfo()) and the date parser (ee.Date);
 * ee.Date.advance(n, month) is modelled as a shift by n * 30 on the integer
   time axis; ee.ImageCollection.filterDate keeps start ≤ t < end (GEE
   semantics: inclusive start, exclusive end);
 * reduceRegion(sum).get(band) is `none` when no unmasked pixel contributed
   (the undefined reduction the spec describes), otherwise the sum;
 * numbers are ℚ; Python round(x, 2) is modelled as round(100 x)/100
   (no claim exercises a half-way tie);
 * the Flask endpooint is modelled with an explicit object heap so that the
   in-place mutation of the response dict is observable.
-/

namespace AlphaEarth

/-- One pixel of a source (multi-band) image: its ground area, the three
bands read by the program, and whether the pixel lies inside the area of
interest (`clip(aoi)` keeps exactly the pixels with `inAOI = true`). -/
structure SrcPixel where
  area : ℚ
  b3 : ℚ
  b4 : ℚ
  b8 : ℚ
  inAOI : Bool
deriving DecidableEq

/-- One pixel of a derived single-band raster; `val = none` means masked. -/
structure RPixel where
  area : ℚ
  val : Option ℚ
deriving DecidableEq

/-- A derived single-band raster. -/
abbrev Raster := List RPixel

/-- A catalog image together with the metadata the program reads. -/
structure SatImage where
  timestamp : ℤ
  cloud : ℚ
  inBounds : Bool
  pixels : List SrcPixel
deriving DecidableEq, Inhabited

/-- The area of interest, as consulted by the pipeline: only its geometric
area (aoi.area().getInfo()) is read. -/
structure AOI where
  area : ℚ
deriving DecidableEq

/-- normalizedDifference of two band values: (a - b) / (a + b), masked when
the denominator is zero. -/
def normalizedDifference (a b : ℚ) : Option ℚ :=
  if a + b = 0 then none else some ((a - b) / (a + b))

/-- calculate_ndvi: image.normalizedDifference([B8, B4]). -/
def calculate_ndvi (image : List SrcPixel) : Raster :=
  image.map fun p => { area := p.area, val := normalizedDifference p.b8 p.b4 }

/-- NDWI: image.normalizedDifference([B3, B8]) (used by the flood analysis). -/
def ndwi_raster (image : List SrcPixel) : Raster :=
  image.map fun p => { area := p.area, val := normalizedDifference p.b3 p.b8 }

/-- Pointwise combination of two rasters (GEE aligns rasters pixelwise; a
pixel is masked when either input is masked).  The pixel area is the first
raster\x27s. -/
def imgCombine (f : ℚ → ℚ → ℚ) (r s : Raster) : Raster :=
  List.zipWith
    (fun p q =>
      { area := p.area
        val := match p.val, q.val with
               | some a, some b => some (f a b)
               | _, _ => none })
    r s

/-- image.subtract(other). -/
def imgSub (r s : Raster) : Raster := imgCombine (fun a b => a - b) r s

/-- image.And(other): 1 where both values are nonzero, else 0. -/
def imgAnd (r s : Raster) : Raster :=
  imgCombine (fun a b => if a ≠ 0 ∧ b ≠ 0 then 1 else 0) r s

/-- image.gt(t): 1 where the value exceeds t, else 0 (masked stays masked). -/
def imgGt (r : Raster) (t : ℚ) : Raster :=
  r.map fun p => { area := p.area, val := p.val.map fun v => if t < v then 1 else 0 }

/-- image.lt(t): 1 where the value is below t, else 0 (masked stays masked). -/
def imgLt (r : Raster) (t : ℚ) : Raster :=
  r.map fun p => { area := p.area, val := p.val.map fun v => if v < t then 1 else 0 }

/-- selfMask on one pixel: mask the pixel where its value is zero. -/
def selfMaskPx (p : RPixel) : RPixel :=
  { area := p.area
    val := match p.val with
           | some v => if v = 0 then none else some v
           | none => none }

/-- image.selfMask(). -/
def selfMask (r : Raster) : Raster := r.map selfMaskPx

/-- image.multiply(ee.Image.pixelArea()). -/
def mulPixelArea (r : Raster) : Raster :=
  r.map fun p => { area := p.area, val := p.val.map fun v => v * p.area }

/-- reduceRegion(ee.Reducer.sum(), ...).get(band): undefined (`none`) when no
unmasked pixel contributed, otherwise the sum of the unmasked values.  The
scale=30 / maxPixels=1e9 arguments are provider-side sampling parameters;
the pixel list already is the sampled raster. -/
def reduceRegionSum (r : Raster) : Option ℚ :=
  if (r.filterMap RPixel.val).isEmpty then none else some (r.filterMap RPixel.val).sum

/-- Python round(x, 2) on the model numbers: round to two decimal places. -/
def round2 (x : ℚ) : ℚ := ((round (x * 100) : ℤ) : ℚ) / 100

/-- burn_threshold = 0.6. -/
def burn_threshold : ℚ := 0.6

/-- water_threshold = 0.3. -/
def water_threshold : ℚ := 0.3

/-- slide_threshold = 0.4. -/
def slide_threshold : ℚ := 0.4

/-- dndvi = ndvi_before.subtract(ndvi_after). -/
def dndvi_raster (image_before image_after : List SrcPixel) : Raster :=
  imgSub (calculate_ndvi image_before) (calculate_ndvi image_after)

/-- burned_area = dndvi.gt(burn_threshold).selfMask(). -/
def burned_area_mask (image_before image_after : List SrcPixel) : Raster :=
  selfMask (imgGt (dndvi_raster image_before image_after) burn_threshold)

/-- analyze_fire_damage: returns (damage_percent, dndvi). -/
def analyze_fire_damage (image_before image_after : List SrcPixel) (aoi : AOI) :
    ℚ × Raster :=
  match reduceRegionSum (mulPixelArea (burned_area_mask image_before image_after)) with
  | none => (0, dndvi_raster image_before image_after)
  | some burned_meters =>
      (round2 (burned_meters / aoi.area * 100), dndvi_raster image_before image_after)

/-- flooded_area = ndwi_before.lt(t).And(ndwi_after.gt(t)).selfMask(). -/
def flooded_area_mask (image_before image_after : List SrcPixel) : Raster :=
  selfMask (imgAnd (imgLt (ndwi_raster image_before) water_threshold)
                   (imgGt (ndwi_raster image_after) water_threshold))

/-- analyze_flood_damage: returns (damage_percent, ndwi_after). -/
def analyze_flood_damage (image_before image_after : List SrcPixel) (aoi : AOI) :
    ℚ × Raster :=
  match reduceRegionSum (mulPixelArea (flooded_area_mask image_before image_after)) with
  | none => (0, ndwi_raster image_after)
  | some flooded_meters =>
      (round2 (flooded_meters / aoi.area * 100), ndwi_raster image_after)

/-- slide_area = dndvi.gt(slide_threshold).selfMask(). -/
def slide_area_mask (image_before image_after : List SrcPixel) : Raster :=
  selfMask (imgGt (dndvi_raster image_before image_after) slide_threshold)

/-- analyze_landslide_damage: returns (damage_percent, dndvi). -/
def analyze_landslide_damage (image_before image_after : List SrcPixel) (aoi : AOI) :
    ℚ × Raster :=
  match reduceRegionSum (mulPixelArea (slide_area_mask image_before image_after)) with
  | none => (0, dndvi_raster image_before image_after)
  | some slide_meters =>
      (round2 (slide_meters / aoi.area * 100), dndvi_raster image_before image_after)

/-- The GEE provider state consulted by one request: the image catalog (the
COPERNICUS/S2_SR_HARMONIZED collection, each image tagged with whether it
intersects the buffered point), the geometric area of the buffered point
(aoi.area().getInfo()) and the ee.Date parser. -/
structure Provider where
  catalog : List SatImage
  aoiArea : ℚ
  dateOf : String → ℤ

/-- Errors raised by get_satellite_imagery; the code raises plain exceptions,
distinguished here by which raise-site produced the message. -/
inductive GeeError where
  | noEligibleImagery (msg : String)
  | unsupportedDisasterType (msg : String)
deriving DecidableEq

/-- str(e) for a GeeError: its message. -/
def GeeError.message : GeeError → String
  | GeeError.noEligibleImagery m => m
  | GeeError.unsupportedDisasterType m => m

/-- Visualization parameters (the min/max/palette/bands dict literals). -/
structure VisParams where
  vmin : ℚ
  vmax : ℚ
  palette : List String
  bands : List String
deriving DecidableEq

/-- getThumbUrl: a rendered reference to a raster with its parameters; the
RGB previews render a (clipped) catalog image, the damage map renders the
analysis raster. -/
inductive Thumb where
  | rgb (image : SatImage) (vp : VisParams)
  | damageMap (r : Raster) (vp : VisParams)
deriving DecidableEq

/-- The value returned by get_satellite_imagery:
(url_before, url_after, url_damage_map, damage_percent). -/
structure GeeResult where
  url_before : Thumb
  url_after : Thumb
  url_damage_map : Thumb
  damage_percent : ℚ
deriving DecidableEq

/-- ee.Date.advance(n, month): months are modelled as 30-step blocks on the
integer time axis (the claims only use that the same shift defines the
windows and the filters). -/
def advanceMonths (d : ℤ) (n : ℤ) : ℤ := d + n * 30

/-- collection.filterBounds(aoi). -/
def filterBounds (catalog : List SatImage) : List SatImage :=
  catalog.filter fun img => img.inBounds

/-- filter(ee.Filter.lt(CLOUDY_PIXEL_PERCENTAGE, 15)). -/
def cloudFilter (c : List SatImage) : List SatImage :=
  c.filter fun img => decide (img.cloud < 15)

/-- The base collection: S2_SR_HARMONIZED, bounds-filtered, cloud-filtered. -/
def baseCollection (prov : Provider) : List SatImage :=
  cloudFilter (filterBounds prov.catalog)

/-- collection.filterDate(s, e): keeps s ≤ timestamp < e (GEE semantics:
inclusive start, exclusive end). -/
def filterDate (c : List SatImage) (s e : ℤ) : List SatImage :=
  c.filter fun img => decide (s ≤ img.timestamp) && decide (img.timestamp < e)

/-- collection_before = collection.filterDate(date_before_start, date_disaster_start). -/
def collection_before (prov : Provider) (d : ℤ) : List SatImage :=
  filterDate (baseCollection prov) (advanceMonths d (-3)) d

/-- collection_after = collection.filterDate(date_disaster_start, date_after_end). -/
def collection_after (prov : Provider) (d : ℤ) : List SatImage :=
  filterDate (baseCollection prov) d (advanceMonths d 3)

/-- sort(system:time_start, False): the later image first. -/
def laterFirst (a b : SatImage) : Prop := b.timestamp ≤ a.timestamp

/-- sort(system:time_start, True): the earlier image first. -/
def earlierFirst (a b : SatImage) : Prop := a.timestamp ≤ b.timestamp

instance : DecidableRel laterFirst := fun a b =>
  inferInstanceAs (Decidable (b.timestamp ≤ a.timestamp))

instance : DecidableRel earlierFirst := fun a b =>
  inferInstanceAs (Decidable (a.timestamp ≤ b.timestamp))

instance : IsTotal SatImage laterFirst :=
  ⟨fun a b => le_total b.timestamp a.timestamp⟩

instance : IsTrans SatImage laterFirst :=
  ⟨fun _ _ _ hab hbc => le_trans hbc hab⟩

instance : IsTotal SatImage earlierFirst :=
  ⟨fun a b => le_total a.timestamp b.timestamp⟩

instance : IsTrans SatImage earlierFirst :=
  ⟨fun _ _ _ hab hbc => le_trans hab hbc⟩

/-- collection.sort(system:time_start, False): descending by timestamp. -/
def sortByTimeDesc (l : List SatImage) : List SatImage := l.insertionSort laterFirst

/-- collection.sort(system:time_start, True): ascending by timestamp. -/
def sortByTimeAsc (l : List SatImage) : List SatImage := l.insertionSort earlierFirst

/-- image_before_obj = collection_before.sort(time, False).first(). -/
def image_before_obj (prov : Provider) (d : ℤ) : SatImage :=
  (sortByTimeDesc (collection_before prov d)).headI

/-- image_after_obj = collection_after.sort(time, True).first(). -/
def image_after_obj (prov : Provider) (d : ℤ) : SatImage :=
  (sortByTimeAsc (collection_after prov d)).headI

/-- image.clip(aoi): restrict the raster to the pixels inside the AOI. -/
def clipImage (img : SatImage) : SatImage :=
  { img with pixels := img.pixels.filter fun p => p.inAOI }

/-- image_before = image_before_obj.clip(aoi). -/
def image_before (prov : Provider) (date_str : String) : SatImage :=
  clipImage (image_before_obj prov (prov.dateOf date_str))

/-- image_after = image_after_obj.clip(aoi). -/
def image_after (prov : Provider) (date_str : String) : SatImage :=
  clipImage (image_after_obj prov (prov.dateOf date_str))

/-- The no-eligible-imagery message (line 112). -/
def noImageryMsg : String :=
  "No cloud-free images (<15%) were found within 3 months before or after the specified date and location. Please try a different date range or area."

/-- The unsupported-disaster-type message (line 147); an f-string around the
requested type. -/
def unsupportedMsg (dtype : String) : String :=
  "Disaster type \x27" ++ dtype ++
    "\x27 is not supported. Use \x27fire\x27, \x27flood\x27, \x27hurricane\x27, or \x27earthquake\x27."

/-- vis_params_rgb = min 0, max 3000, bands [B4, B3, B2]. -/
def vis_params_rgb : VisParams :=
  { vmin := 0, vmax := 3000, palette := [], bands := ["B4", "B3", "B2"] }

/-- The fire palette (line 126). -/
def vis_params_fire : VisParams :=
  { vmin := -0.5, vmax := 1, palette := ["blue", "white", "green", "yellow", "red"],
    bands := [] }

/-- The flood palette (line 131). -/
def vis_params_flood : VisParams :=
  { vmin := -0.5, vmax := 1, palette := ["orange", "white", "blue"], bands := [] }

/-- The hurricane palette (line 137), a second literal with the same value. -/
def vis_params_hurricane : VisParams :=
  { vmin := -0.5, vmax := 1, palette := ["orange", "white", "blue"], bands := [] }

/-- The earthquake palette (line 143). -/
def vis_params_earthquake : VisParams :=
  { vmin := -0.2, vmax := 0.8, palette := ["blue", "white", "green", "brown", "red"],
    bands := [] }

/-- Packaging of the return value (url_before, url_after, url_damage_map,
damage_percent) from the selected images and the analysis output. -/
def mkResult (b a : SatImage) (analysis : ℚ × Raster) (vp : VisParams) : GeeResult :=
  { url_before := Thumb.rgb b vis_params_rgb
    url_after := Thumb.rgb a vis_params_rgb
    url_damage_map := Thumb.damageMap analysis.2 vp
    damage_percent := analysis.1 }

/-- get_satellite_imagery (lines 96-156): build the AOI, window and filter the
collection, fail when either partition is empty, select and clip the
before/after images, dispatch on the disaster type, and package the result.
The lat/lon arguments feed the provider-side geometry, already reflected in
`Provider`. -/
def get_satellite_imagery (prov : Provider) (_lat _lon : ℚ)
    (disaster_date_str disaster_type : String) : Except GeeError GeeResult :=
  if (collection_before prov (prov.dateOf disaster_date_str)).length = 0
      ∨ (collection_after prov (prov.dateOf disaster_date_str)).length = 0 then
    Except.error (GeeError.noEligibleImagery noImageryMsg)
  else if disaster_type = "fire" then
    Except.ok (mkResult (image_before prov disaster_date_str)
      (image_after prov disaster_date_str)
      (analyze_fire_damage (image_before prov disaster_date_str).pixels
        (image_after prov disaster_date_str).pixels { area := prov.aoiArea })
      vis_params_fire)
  else if disaster_type = "flood" then
    Except.ok (mkResult (image_before prov disaster_date_str)
      (image_after prov disaster_date_str)
      (analyze_flood_damage (image_before prov disaster_date_str).pixels
        (image_after prov disaster_date_str).pixels { area := prov.aoiArea })
      vis_params_flood)
  else if disaster_type = "hurricane" then
    Except.ok (mkResult (image_before prov disaster_date_str)
      (image_after prov disaster_date_str)
      (analyze_flood_damage (image_before prov disaster_date_str).pixels
        (image_after prov disaster_date_str).pixels { area := prov.aoiArea })
      vis_params_hurricane)
  else if disaster_type = "earthquake" then
    Except.ok (mkResult (image_before prov disaster_date_str)
      (image_after prov disaster_date_str)
      (analyze_landslide_damage (image_before prov disaster_date_str).pixels
        (image_after prov disaster_date_str).pixels { area := prov.aoiArea })
      vis_params_earthquake)
  else
    Except.error (GeeError.unsupportedDisasterType (unsupportedMsg disaster_type))

/-- The severity classification of analyze_damage_endpoint (lines 184-190):
status starts as the light-damage label and the three conditions are tested
in the order severe, considerable, no-significant. -/
def classify_status (damage_percent : ℚ) : String :=
  if damage_percent > 70 then "AUTOMATICALLY APPROVED (Severe Damage)"
  else if damage_percent > 30 then "FLAGGED FOR REVIEW (Considerable Damage)"
  else if damage_percent < 5 then "No Significant Damage Detected"
  else "Light Damage Detected"

/-- C1: Severity classification is a pure function of damage_percent,
evaluated severe → considerable → no-significant with a light-damage
default: values above 70 are severe, values in (30, 70] are flagged, values
below 5 are no-significant, the remaining values in [5, 30] are light; in
particular 80 ↦ severe, 50 ↦ flagged, 3 ↦ no-significant, 15 ↦ light, and
the boundaries 70 ↦ flagged (strict >) and 5 ↦ light (strict <). -/
theorem severity_classification :
    (∀ damage_percent : ℚ,
      (70 < damage_percent →
        classify_status damage_percent = "AUTOMATICALLY APPROVED (Severe Damage)")
      ∧ (30 < damage_percent → damage_percent ≤ 70 →
        classify_status damage_percent = "FLAGGED FOR REVIEW (Considerable Damage)")
      ∧ (damage_percent < 5 →
        classify_status damage_percent = "No Significant Damage Detected")
      ∧ (5 ≤ damage_percent → damage_percent ≤ 30 →
        classify_status damage_percent = "Light Damage Detected"))
    ∧ classify_status 80 = "AUTOMATICALLY APPROVED (Severe Damage)"
    ∧ classify_status 50 = "FLAGGED FOR REVIEW (Considerable Damage)"
    ∧ classify_status 3 = "No Significant Damage Detected"
    ∧ classify_status 15 = "Light Damage Detected"
    ∧ classify_status 70 = "FLAGGED FOR REVIEW (Considerable Damage)"
    ∧ classify_status 5 = "Light Damage Detected" := by
  refine ⟨fun dp => ⟨?_, ?_, ?_, ?_⟩, ?_, ?_, ?_, ?_, ?_, ?_⟩ <;>
    simp only [classify_status] <;> intros <;> split_ifs <;> first | rfl | linarith

/-- A JSON-able value of the response dict. -/
inductive Val where
  | str (s : String)
  | num (q : ℚ)
  | thumb (t : Thumb)
deriving DecidableEq

/-- A Python dict, as an ordered association list (insertion order). -/
abbrev Dict := List (String × Val)

/-- d.get(k) / d[k]. -/
def dictLookup (d : Dict) (k : String) : Option Val :=
  (d.find? fun kv => kv.1 == k).map Prod.snd

/-- d[k] = v: update in place when the key exists, else append it. -/
def dictInsert (d : Dict) (k : String) (v : Val) : Dict :=
  if d.any fun kv => kv.1 == k then
    d.map fun kv => if kv.1 == k then (k, v) else kv
  else d ++ [(k, v)]

/-- The mutable state the endpoint touches: the object heap (addresses are
allocation indices; here only response dicts are heap objects) and the
SimpleCache contents (the cache serializes on set, so it stores dict
values; the 1-hour TTL is not modelled: no claim mentions expiry). -/
structure HState where
  heap : List Dict
  cache : List (String × Dict)
deriving DecidableEq

/-- cache.get(key). -/
def cacheGet (c : List (String × Dict)) (k : String) : Option Dict :=
  (c.find? fun kv => kv.1 == k).map Prod.snd

/-- cache.set(key, value): the stored value is the dict value at set time. -/
def cacheSet (c : List (String × Dict)) (k : String) (v : Dict) :
    List (String × Dict) :=
  (k, v) :: c.filter fun kv => kv.1 != k

/-- Python truthiness of a parsed float: 0.0 is falsy. -/
def pyTruthyNum (x : ℚ) : Bool := x != 0

/-- Python truthiness of a string: the empty string is falsy. -/
def pyTruthyStr (s : String) : Bool := s != ""

/-- Python truthiness of cache.get(...): None and the empty dict are falsy. -/
def pyTruthyDictOpt : Option Dict → Bool
  | none => false
  | some d => !d.isEmpty

/-- One request body, after float() parsing of lat/lon. -/
structure Request where
  lat : ℚ
  lon : ℚ
  disaster_date : String
  disaster_type : String
deriving DecidableEq

/-- The 400 message (line 170). -/
def missingParamsMsg : String :=
  "Faltan \x27lat\x27, \x27lon\x27, \x27disaster_date\x27 o \x27disaster_type\x27"

/-- The 500 body (line 233). -/
def errorBody (m : String) : String := "Error in the analysis: " ++ m

/-- cache_key = f-string of the four parameters (line 172). -/
def cache_key (req : Request) : String :=
  "analysis_" ++ toString req.lat ++ "_" ++ toString req.lon ++ "_" ++
    req.disaster_date ++ "_" ++ req.disaster_type

/-- location_processed = f-string of lat and lon (line 198). -/
def locationString (lat lon : ℚ) : String :=
  "Lat: " ++ toString lat ++ ", Lon: " ++ toString lon

/-- response_data as constructed at lines 192-201. -/
def mkReportDict (req : Request) (status : String) (r : GeeResult) : Dict :=
  [("status", Val.str status),
   ("damage_percent", Val.num r.damage_percent),
   ("image_url_before", Val.thumb r.url_before),
   ("image_url_after", Val.thumb r.url_after),
   ("image_url_damage_map", Val.thumb r.url_damage_map),
   ("location_processed", Val.str (locationString req.lat req.lon)),
   ("date_processed", Val.str req.disaster_date),
   ("type_processed", Val.str req.disaster_type)]

/-- The risk-context string chosen at lines 206-224. -/
def risk_context (disaster_type : String) (lat lon : ℚ) : String :=
  if disaster_type = "flood" ∨ disaster_type = "hurricane" then
    if (lat > 29 ∧ lat < 31) ∧ (lon > -91 ∧ lon < -89) then
      "ALERT! This property is in a High-Risk Flood/Storm Surge Zone designated by FEMA (e.g., Zone AE)."
    else "Property is outside of known high-risk flood zones."
  else if disaster_type = "earthquake" then
    if (lat > 33 ∧ lat < 35) ∧ (lon > -119 ∧ lon < -117) then
      "ALERT! This property is in a High-Risk Seismic Zone (e.g., near San Andreas Fault)."
    else "Property is outside of known high-risk seismic zones."
  else if disaster_type = "fire" then
    "Wildfire risk context for this area is under analysis."
  else "Risk context analysis not applicable for this type of disaster."

/-- The observable outcome of one request.  badRequest is the 400 response,
okCached / ok are the two 200 jsonify sites (cache hit at line 177, fresh
response at line 229), serverError is the 500 response of the except arm. -/
inductive EndpointResult where
  | badRequest (body : String)
  | okCached (body : Dict)
  | ok (body : Dict)
  | serverError (body : String)
deriving DecidableEq

/-- The success arm of the endpoint (lines 184-229): build response_data
(one fresh heap object), classify, assign response_data[risk_context] in
place on that same object, cache the resulting value, and return it. -/
def endpointSuccess (st : HState) (req : Request) (r : GeeResult) :
    EndpointResult × HState :=
  let report : Dict := mkReportDict req (classify_status r.damage_percent) r
  let addr : ℕ := st.heap.length
  let heap1 : List Dict := st.heap ++ [report]
  let heap2 : List Dict :=
    heap1.set addr
      (dictInsert (heap1.getD addr [])
        ("risk_context")
        (Val.str (risk_context req.disaster_type req.lat req.lon)))
  let body : Dict := heap2.getD addr []
  (EndpointResult.ok body,
   { heap := heap2, cache := cacheSet st.cache (cache_key req) body })

/-- analyze_damage_endpoint (lines 161-233): truthiness check of the four
parsed parameters, cache probe, pipeline call with the exception handler,
then the success arm. -/
def analyze_damage_endpoint (prov : Provider) (st : HState) (req : Request) :
    EndpointResult × HState :=
  if !(pyTruthyNum req.lat && pyTruthyNum req.lon &&
       pyTruthyStr req.disaster_date && pyTruthyStr req.disaster_type) then
    (EndpointResult.badRequest missingParamsMsg, st)
  else if pyTruthyDictOpt (cacheGet st.cache (cache_key req)) then
    (EndpointResult.okCached ((cacheGet st.cache (cache_key req)).getD []), st)
  else
    match get_satellite_imagery prov req.lat req.lon req.disaster_date
        req.disaster_type with
    | Except.error e => (EndpointResult.serverError (errorBody e.message), st)
    | Except.ok r => endpointSuccess st req r

/-- Witness for severity_classification at the concrete inputs 80, 3 and 70. -/
theorem severity_classification_witness :
    (70 < (80 : ℚ)
      ∧ classify_status 80 = "AUTOMATICALLY APPROVED (Severe Damage)")
    ∧ ((3 : ℚ) < 5 ∧ classify_status 3 = "No Significant Damage Detected")
    ∧ (30 < (70 : ℚ) ∧ (70 : ℚ) ≤ 70
      ∧ classify_status 70 = "FLAGGED FOR REVIEW (Considerable Damage)") :=
  ⟨⟨by norm_num, (severity_classification.1 80).1 (by norm_num)⟩,
   ⟨by norm_num, (severity_classification.1 3).2.2.1 (by norm_num)⟩,
   ⟨by norm_num, by norm_num,
    (severity_classification.1 70).2.1 (by norm_num) (by norm_num)⟩⟩

/-- The closed set of supported disaster types. -/
def supported_types : List String := ["fire", "flood", "hurricane", "earthquake"]

/-- A concrete catalog image before the event: one in-AOI pixel of area 50
with NDVI 1/3. -/
def imgBefore1 : SatImage :=
  { timestamp := -10, cloud := 5, inBounds := true,
    pixels := [{ area := 50, b3 := 1, b4 := 1, b8 := 2, inAOI := true }] }

/-- A concrete catalog image after the event: one in-AOI pixel of area 50
with NDVI -1/2 (so the fire mask fires: dNDVI = 5/6 > 0.6). -/
def imgAfter1 : SatImage :=
  { timestamp := 5, cloud := 5, inBounds := true,
    pixels := [{ area := 50, b3 := 2, b4 := 3, b8 := 1, inAOI := true }] }

/-- A concrete provider: the two images above, AOI area 100, all date
strings parsing to day 0. -/
def provA : Provider :=
  { catalog := [imgBefore1, imgAfter1], aoiArea := 100, dateOf := fun _ => 0 }

/-- A concrete date string for provA (parsed to day 0 by provA.dateOf). -/
def dsA : String := "2024-01-01"

/-- C3: for every supported disaster type, an undefined masked-area
reduction (no pixel passed the mask condition) makes the analysis return
exactly 0.0 as damage_percent, together with the usual visualization raster
rather than any failure (the analysis functions are total). -/
theorem empty_mask_is_zero (ib ia : List SrcPixel) (aoi : AOI) :
    (reduceRegionSum (mulPixelArea (burned_area_mask ib ia)) = none →
      (analyze_fire_damage ib ia aoi).1 = 0
      ∧ (analyze_fire_damage ib ia aoi).2 = dndvi_raster ib ia)
    ∧ (reduceRegionSum (mulPixelArea (flooded_area_mask ib ia)) = none →
      (analyze_flood_damage ib ia aoi).1 = 0
      ∧ (analyze_flood_damage ib ia aoi).2 = ndwi_raster ia)
    ∧ (reduceRegionSum (mulPixelArea (slide_area_mask ib ia)) = none →
      (analyze_landslide_damage ib ia aoi).1 = 0
      ∧ (analyze_landslide_damage ib ia aoi).2 = dndvi_raster ib ia) := by
  refine ⟨fun h => ?_, fun h => ?_, fun h => ?_⟩ <;>
    simp [analyze_fire_damage, analyze_flood_damage, analyze_landslide_damage, h]

/-- Witness for empty_mask_is_zero: on empty rasters every mask is empty and
all three analyses return 0. -/
theorem empty_mask_is_zero_witness :
    (reduceRegionSum (mulPixelArea (burned_area_mask [] [])) = none
      ∧ (analyze_fire_damage [] [] { area := 100 }).1 = 0)
    ∧ (reduceRegionSum (mulPixelArea (flooded_area_mask [] [])) = none
      ∧ (analyze_flood_damage [] [] { area := 100 }).1 = 0)
    ∧ (reduceRegionSum (mulPixelArea (slide_area_mask [] [])) = none
      ∧ (analyze_landslide_damage [] [] { area := 100 }).1 = 0) :=
  ⟨⟨rfl, ((empty_mask_is_zero [] [] { area := 100 }).1 rfl).1⟩,
   ⟨rfl, ((empty_mask_is_zero [] [] { area := 100 }).2.1 rfl).1⟩,
   ⟨rfl, ((empty_mask_is_zero [] [] { area := 100 }).2.2 rfl).1⟩⟩

/-- C4: for identical inputs, disasterType hurricane returns exactly the
result of disasterType flood — the same selected images, the same continuous
change raster and damage percentage (the hurricane branch calls
analyze_flood_damage, so change mask, raster and percentage coincide
definitionally), and even the hurricane visualization literal equals the
flood one. -/
theorem hurricane_is_flood_alias (prov : Provider) (lat lon : ℚ) (ds : String) :
    get_satellite_imagery prov lat lon ds ("hurricane")
      = get_satellite_imagery prov lat lon ds ("flood")
    ∧ vis_params_hurricane = vis_params_flood :=
  ⟨rfl, rfl⟩

/-- first() after a descending sort returns an element of the collection
with the maximal timestamp. -/
lemma headI_sortByTimeDesc_spec (l : List SatImage) (h : l ≠ []) :
    (sortByTimeDesc l).headI ∈ l
    ∧ ∀ x ∈ l, x.timestamp ≤ (sortByTimeDesc l).headI.timestamp := by
  rcases hs : sortByTimeDesc l with _ | ⟨a, t⟩
  · have hp := List.perm_insertionSort laterFirst l
    rw [show List.insertionSort laterFirst l = sortByTimeDesc l from rfl, hs] at hp
    exact absurd hp.symm.eq_nil h
  · constructor
    · have hmem : a ∈ sortByTimeDesc l := by
        rw [hs]; exact List.mem_cons_self a t
      exact (List.mem_insertionSort laterFirst).mp hmem
    · intro x hx
      have hx2 : x ∈ a :: t := by
        rw [← hs]; exact (List.mem_insertionSort laterFirst).mpr hx
      rcases List.mem_cons.mp hx2 with hxa | hxt
      · subst hxa; simp
      · have hsorted : List.Sorted laterFirst (sortByTimeDesc l) :=
          List.sorted_insertionSort laterFirst l
        rw [hs] at hsorted
        simpa using List.rel_of_sorted_cons hsorted x hxt

/-- first() after an ascending sort returns an element of the collection
with the minimal timestamp. -/
lemma headI_sortByTimeAsc_spec (l : List SatImage) (h : l ≠ []) :
    (sortByTimeAsc l).headI ∈ l
    ∧ ∀ x ∈ l, (sortByTimeAsc l).headI.timestamp ≤ x.timestamp := by
  rcases hs : sortByTimeAsc l with _ | ⟨a, t⟩
  · have hp := List.perm_insertionSort earlierFirst l
    rw [show List.insertionSort earlierFirst l = sortByTimeAsc l from rfl, hs] at hp
    exact absurd hp.symm.eq_nil h
  · constructor
    · have hmem : a ∈ sortByTimeAsc l := by
        rw [hs]; exact List.mem_cons_self a t
      exact (List.mem_insertionSort earlierFirst).mp hmem
    · intro x hx
      have hx2 : x ∈ a :: t := by
        rw [← hs]; exact (List.mem_insertionSort earlierFirst).mpr hx
      rcases List.mem_cons.mp hx2 with hxa | hxt
      · subst hxa; simp
      · have hsorted : List.Sorted earlierFirst (sortByTimeAsc l) :=
          List.sorted_insertionSort earlierFirst l
        rw [hs] at hsorted
        simpa using List.rel_of_sorted_cons hsorted x hxt

/-- Membership in the before partition, unfolded to the catalog filters. -/
lemma mem_collection_before {prov : Provider} {d : ℤ} {x : SatImage} :
    x ∈ collection_before prov d ↔
      x ∈ prov.catalog ∧ x.inBounds = true ∧ x.cloud < 15
      ∧ advanceMonths d (-3) ≤ x.timestamp ∧ x.timestamp < d := by
  simp only [collection_before, filterDate, baseCollection, cloudFilter, filterBounds,
    List.mem_filter, Bool.and_eq_true, decide_eq_true_eq]
  tauto

/-- Membership in the after partition, unfolded to the catalog filters. -/
lemma mem_collection_after {prov : Provider} {d : ℤ} {x : SatImage} :
    x ∈ collection_after prov d ↔
      x ∈ prov.catalog ∧ x.inBounds = true ∧ x.cloud < 15
      ∧ d ≤ x.timestamp ∧ x.timestamp < advanceMonths d 3 := by
  simp only [collection_after, filterDate, baseCollection, cloudFilter, filterBounds,
    List.mem_filter, Bool.and_eq_true, decide_eq_true_eq]
  tauto

/-- C7: with both eligible partitions non-empty, the selector picks the
latest-timestamp image from the before partition and the
earliest-timestamp image from the after partition; hence the before
timestamp is strictly earlier than the after timestamp, the before
timestamp lies in the 3-month window before the event date, the after
timestamp in the 3-month window after it, and any successful result
renders exactly these two images clipped to the AOI. -/
theorem imagery_selection (prov : Provider) (lat lon : ℚ) (ds dt : String)
    (hb : collection_before prov (prov.dateOf ds) ≠ [])
    (ha : collection_after prov (prov.dateOf ds) ≠ []) :
    image_before_obj prov (prov.dateOf ds) ∈ collection_before prov (prov.dateOf ds)
    ∧ (∀ x ∈ collection_before prov (prov.dateOf ds),
        x.timestamp ≤ (image_before_obj prov (prov.dateOf ds)).timestamp)
    ∧ image_after_obj prov (prov.dateOf ds) ∈ collection_after prov (prov.dateOf ds)
    ∧ (∀ x ∈ collection_after prov (prov.dateOf ds),
        (image_after_obj prov (prov.dateOf ds)).timestamp ≤ x.timestamp)
    ∧ (image_before_obj prov (prov.dateOf ds)).timestamp
        < (image_after_obj prov (prov.dateOf ds)).timestamp
    ∧ advanceMonths (prov.dateOf ds) (-3)
        ≤ (image_before_obj prov (prov.dateOf ds)).timestamp
    ∧ (image_before_obj prov (prov.dateOf ds)).timestamp < prov.dateOf ds
    ∧ prov.dateOf ds ≤ (image_after_obj prov (prov.dateOf ds)).timestamp
    ∧ (image_after_obj prov (prov.dateOf ds)).timestamp
        < advanceMonths (prov.dateOf ds) 3
    ∧ (∀ r : GeeResult,
        get_satellite_imagery prov lat lon ds dt = Except.ok r →
        r.url_before
          = Thumb.rgb (clipImage (image_before_obj prov (prov.dateOf ds))) vis_params_rgb
        ∧ r.url_after
          = Thumb.rgb (clipImage (image_after_obj prov (prov.dateOf ds))) vis_params_rgb) := by
  have hbspec := headI_sortByTimeDesc_spec _ hb
  have haspec := headI_sortByTimeAsc_spec _ ha
  have hbwin := mem_collection_before.mp hbspec.1
  have hawin := mem_collection_after.mp haspec.1
  refine ⟨hbspec.1, hbspec.2, haspec.1, haspec.2,
    lt_of_lt_of_le hbwin.2.2.2.2 hawin.2.2.2.1,
    hbwin.2.2.2.1, hbwin.2.2.2.2, hawin.2.2.2.1, hawin.2.2.2.2, ?_⟩
  intro r hok
  simp only [get_satellite_imagery] at hok
  split_ifs at hok
  all_goals rw [Except.ok.injEq] at hok
  all_goals subst hok
  all_goals exact ⟨rfl, rfl⟩

/-- Witness for imagery_selection on the concrete provider provA. -/
theorem imagery_selection_witness :
    (collection_before provA (provA.dateOf dsA) ≠ []
      ∧ collection_after provA (provA.dateOf dsA) ≠ [])
    ∧ image_before_obj provA (provA.dateOf dsA)
        ∈ collection_before provA (provA.dateOf dsA)
    ∧ (image_before_obj provA (provA.dateOf dsA)).timestamp
        < (image_after_obj provA (provA.dateOf dsA)).timestamp
    ∧ (image_before_obj provA (provA.dateOf dsA)).timestamp < provA.dateOf dsA
    ∧ provA.dateOf dsA ≤ (image_after_obj provA (provA.dateOf dsA)).timestamp := by
  have h := imagery_selection provA 1 1 dsA ("fire") (by decide) (by decide)
  exact ⟨⟨by decide, by decide⟩, h.1, h.2.2.2.2.1,
    h.2.2.2.2.2.2.1, h.2.2.2.2.2.2.2.1⟩

/-- A cloud-10 image early in the before window. -/
def imgCloudy10 : SatImage :=
  { timestamp := 10, cloud := 10, inBounds := true, pixels := [] }

/-- A cloud-14 image later in the before window. -/
def imgCloudy14 : SatImage :=
  { timestamp := 20, cloud := 14, inBounds := true, pixels := [] }

/-- An after-window image for provC8. -/
def imgAfterC8 : SatImage :=
  { timestamp := 100, cloud := 5, inBounds := true, pixels := [] }

/-- A provider whose before window holds two eligible images of different
cloudiness; every date string parses to day 50. -/
def provC8 : Provider :=
  { catalog := [imgCloudy10, imgCloudy14, imgAfterC8], aoiArea := 100,
    dateOf := fun _ => 50 }

/-- Counterexample to C8: on provC8 the before partition holds an eligible
image with cloud 10 and one with cloud 14, and the selector picks the
cloud-14 one (the most recent), so the selected image is not the
least-cloudy eligible image of its window. -/
theorem least_cloudy_counterexample :
    image_before_obj provC8 (provC8.dateOf dsA) = imgCloudy14
    ∧ imgCloudy10 ∈ collection_before provC8 (provC8.dateOf dsA)
    ∧ imgCloudy10.cloud < imgCloudy14.cloud := by
  decide

/-- C8 as amended: each selected image is an eligible image of its window
(it intersects the AOI, its cloud cover is below 15, and its timestamp lies
in the window), and the selection among the eligible images is purely by
timestamp — the most recent one from the before window, the earliest one
from the after window — independent of relative cloudiness. -/
theorem selection_by_recency (prov : Provider) (d : ℤ)
    (hb : collection_before prov d ≠ []) (ha : collection_after prov d ≠ []) :
    (image_before_obj prov d ∈ collection_before prov d
      ∧ (image_before_obj prov d).inBounds = true
      ∧ (image_before_obj prov d).cloud < 15
      ∧ (∀ x ∈ collection_before prov d,
          x.timestamp ≤ (image_before_obj prov d).timestamp))
    ∧ (image_after_obj prov d ∈ collection_after prov d
      ∧ (image_after_obj prov d).inBounds = true
      ∧ (image_after_obj prov d).cloud < 15
      ∧ (∀ x ∈ collection_after prov d,
          (image_after_obj prov d).timestamp ≤ x.timestamp)) := by
  have hbspec := headI_sortByTimeDesc_spec _ hb
  have haspec := headI_sortByTimeAsc_spec _ ha
  have hbwin := mem_collection_before.mp hbspec.1
  have hawin := mem_collection_after.mp haspec.1
  exact ⟨⟨hbspec.1, hbwin.2.1, hbwin.2.2.1, hbspec.2⟩,
    ⟨haspec.1, hawin.2.1, hawin.2.2.1, haspec.2⟩⟩

/-- Witness for selection_by_recency on provC8. -/
theorem selection_by_recency_witness :
    (collection_before provC8 50 ≠ [] ∧ collection_after provC8 50 ≠ [])
    ∧ image_before_obj provC8 50 ∈ collection_before provC8 50
    ∧ (image_before_obj provC8 50).cloud < 15
    ∧ image_after_obj provC8 50 ∈ collection_after provC8 50
    ∧ (image_after_obj provC8 50).cloud < 15 := by
  have h := selection_by_recency provC8 50 (by decide) (by decide)
  exact ⟨⟨by decide, by decide⟩, h.1.1, h.1.2.2.1, h.2.1, h.2.2.2.1⟩

/-- A provider with an empty catalog. -/
def provEmpty : Provider :=
  { catalog := [], aoiArea := 1, dateOf := fun _ => 0 }

instance : DecidableEq (Except GeeError GeeResult) := fun a b =>
  match a, b with
  | Except.error x, Except.error y =>
    if h : x = y then isTrue (by rw [h])
    else isFalse (by intro hc; cases hc; exact h rfl)
  | Except.ok x, Except.ok y =>
    if h : x = y then isTrue (by rw [h])
    else isFalse (by intro hc; cases hc; exact h rfl)
  | Except.error _, Except.ok _ => isFalse (by intro hc; cases hc)
  | Except.ok _, Except.error _ => isFalse (by intro hc; cases hc)

/-- Discriminator: did the pipeline fail with the unsupported-type error? -/
def isUnsupportedError : Except GeeError GeeResult → Bool
  | Except.error (GeeError.unsupportedDisasterType _) => true
  | _ => false

/-- Counterexample to C5: with an empty catalog, the imagery check fires
before the type dispatch, so the unsupported type tsunami fails with the
no-eligible-imagery error, not with the unsupported-disaster-type error. -/
theorem unsupported_error_counterexample :
    get_satellite_imagery provEmpty 0 0 dsA ("tsunami")
      = Except.error (GeeError.noEligibleImagery noImageryMsg)
    ∧ isUnsupportedError (get_satellite_imagery provEmpty 0 0 dsA ("tsunami"))
      = false := by
  decide

/-- s contains sub as a contiguous substring. -/
def strContains (s sub : String) : Prop :=
  ∃ l r : String, s = l ++ (sub ++ r)

/-- Splitting helper: the middle piece of a concatenation is a substring. -/
lemma strContains_mid (a b x y z : String) :
    strContains (a ++ b ++ (x ++ (y ++ z))) y :=
  ⟨a ++ (b ++ x), z, by simp [String.append_assoc]⟩

/-- C5 as amended: an unsupported disaster type is rejected — whenever the
eligible-imagery check passes (both partitions non-empty), the pipeline
fails with the unsupported-disaster-type error whose message names each of
the four allowed types; and with an unsupported type the pipeline never
returns a result (no silent default analysis), the only other outcome being
the earlier no-eligible-imagery failure. -/
theorem unsupported_type_rejected (prov : Provider) (lat lon : ℚ)
    (ds dt : String) (hdt : dt ∉ supported_types) :
    (collection_before prov (prov.dateOf ds) ≠ [] →
      collection_after prov (prov.dateOf ds) ≠ [] →
      get_satellite_imagery prov lat lon ds dt
        = Except.error (GeeError.unsupportedDisasterType (unsupportedMsg dt)))
    ∧ (∀ t ∈ supported_types, strContains (unsupportedMsg dt) t)
    ∧ (∀ r : GeeResult, get_satellite_imagery prov lat lon ds dt ≠ Except.ok r) := by
  simp only [supported_types, List.mem_cons, List.not_mem_nil, or_false,
    not_or] at hdt
  obtain ⟨h1, h2, h3, h4⟩ := hdt
  refine ⟨fun hb ha => ?_, ?_, fun r hok => ?_⟩
  · simp only [get_satellite_imagery]
    rw [if_neg, if_neg h1, if_neg h2, if_neg h3, if_neg h4]
    rintro (hc | hc)
    · exact hb (List.length_eq_zero.mp hc)
    · exact ha (List.length_eq_zero.mp hc)
  · intro t ht
    simp only [supported_types, List.mem_cons, List.not_mem_nil, or_false] at ht
    rcases ht with h | h | h | h <;> subst h <;> unfold unsupportedMsg
    · rw [show ("\x27 is not supported. Use \x27fire\x27, \x27flood\x27, \x27hurricane\x27, or \x27earthquake\x27." : String)
            = "\x27 is not supported. Use \x27" ++
              ("fire" ++ "\x27, \x27flood\x27, \x27hurricane\x27, or \x27earthquake\x27.") from by decide]
      exact strContains_mid _ _ _ _ _
    · rw [show ("\x27 is not supported. Use \x27fire\x27, \x27flood\x27, \x27hurricane\x27, or \x27earthquake\x27." : String)
            = "\x27 is not supported. Use \x27fire\x27, \x27" ++
              ("flood" ++ "\x27, \x27hurricane\x27, or \x27earthquake\x27.") from by decide]
      exact strContains_mid _ _ _ _ _
    · rw [show ("\x27 is not supported. Use \x27fire\x27, \x27flood\x27, \x27hurricane\x27, or \x27earthquake\x27." : String)
            = "\x27 is not supported. Use \x27fire\x27, \x27flood\x27, \x27" ++
              ("hurricane" ++ "\x27, or \x27earthquake\x27.") from by decide]
      exact strContains_mid _ _ _ _ _
    · rw [show ("\x27 is not supported. Use \x27fire\x27, \x27flood\x27, \x27hurricane\x27, or \x27earthquake\x27." : String)
            = "\x27 is not supported. Use \x27fire\x27, \x27flood\x27, \x27hurricane\x27, or \x27" ++
              ("earthquake" ++ "\x27.") from by decide]
      exact strContains_mid _ _ _ _ _
  · simp only [get_satellite_imagery] at hok
    rw [if_neg h1, if_neg h2, if_neg h3, if_neg h4] at hok
    split at hok <;> exact Except.noConfusion hok

/-- Witness for unsupported_type_rejected: tsunami on provA. -/
theorem unsupported_type_rejected_witness :
    ("tsunami" ∉ supported_types)
    ∧ (collection_before provA (provA.dateOf dsA) ≠ []
      ∧ collection_after provA (provA.dateOf dsA) ≠ [])
    ∧ get_satellite_imagery provA 1 1 dsA ("tsunami")
        = Except.error
            (GeeError.unsupportedDisasterType (unsupportedMsg ("tsunami"))) :=
  ⟨by decide, ⟨by decide, by decide⟩,
   (unsupported_type_rejected provA 1 1 dsA ("tsunami") (by decide)).1
     (by decide) (by decide)⟩

/-- C6: for every request and every disaster type, when either cloud-filtered
window partition is empty the pipeline fails with the no-eligible-imagery
error, and the endpoint surfaces it as a descriptive error response (the 500
except-arm) with the state untouched — nothing is cached and no default
report is produced; the server keeps serving, so the failure is user-facing
and recoverable. -/
theorem no_eligible_imagery_propagates (prov : Provider) (st : HState)
    (req : Request)
    (hempty : collection_before prov (prov.dateOf req.disaster_date) = []
      ∨ collection_after prov (prov.dateOf req.disaster_date) = [])
    (ht : (pyTruthyNum req.lat && pyTruthyNum req.lon &&
          pyTruthyStr req.disaster_date && pyTruthyStr req.disaster_type) = true)
    (hm : pyTruthyDictOpt (cacheGet st.cache (cache_key req)) = false) :
    get_satellite_imagery prov req.lat req.lon req.disaster_date req.disaster_type
      = Except.error (GeeError.noEligibleImagery noImageryMsg)
    ∧ (analyze_damage_endpoint prov st req).1
      = EndpointResult.serverError (errorBody noImageryMsg)
    ∧ (analyze_damage_endpoint prov st req).2 = st := by
  have hc : (collection_before prov (prov.dateOf req.disaster_date)).length = 0
      ∨ (collection_after prov (prov.dateOf req.disaster_date)).length = 0 :=
    hempty.imp List.length_eq_zero.mpr List.length_eq_zero.mpr
  have hpipe : get_satellite_imagery prov req.lat req.lon req.disaster_date
      req.disaster_type = Except.error (GeeError.noEligibleImagery noImageryMsg) := by
    simp only [get_satellite_imagery]
    rw [if_pos hc]
  refine ⟨hpipe, ?_, ?_⟩ <;>
    simp [analyze_damage_endpoint, ht, hm, hpipe, GeeError.message]

/-- The empty initial state of the endpoint model. -/
def hstEmpty : HState := { heap := [], cache := [] }

/-- A well-formed request used by witnesses. -/
def reqC6 : Request :=
  { lat := 1, lon := 1, disaster_date := dsA, disaster_type := "flood" }

/-- Witness for no_eligible_imagery_propagates: a flood request against the
empty catalog. -/
theorem no_eligible_imagery_propagates_witness :
    (collection_before provEmpty (provEmpty.dateOf reqC6.disaster_date) = []
      ∨ collection_after provEmpty (provEmpty.dateOf reqC6.disaster_date) = [])
    ∧ get_satellite_imagery provEmpty reqC6.lat reqC6.lon reqC6.disaster_date
        reqC6.disaster_type
      = Except.error (GeeError.noEligibleImagery noImageryMsg)
    ∧ (analyze_damage_endpoint provEmpty hstEmpty reqC6).1
      = EndpointResult.serverError (errorBody noImageryMsg) := by
  have h := no_eligible_imagery_propagates provEmpty hstEmpty reqC6
    (Or.inl (by decide)) (by decide) (by decide)
  exact ⟨Or.inl (by decide), h.1, h.2.1⟩

/-- C10: the presence check of the endpoint is a truthiness test on the
parsed values: a request whose four fields are present but whose lat or lon
equals 0.0 gets the missing-parameter 400 response and leaves the state
untouched, for every provider — so the analysis pipeline is never consulted. -/
theorem zero_coordinate_rejected (prov : Provider) (st : HState) (req : Request)
    (h : req.lat = 0 ∨ req.lon = 0) :
    (analyze_damage_endpoint prov st req).1
      = EndpointResult.badRequest missingParamsMsg
    ∧ (analyze_damage_endpoint prov st req).2 = st := by
  have hfalse : (pyTruthyNum req.lat && pyTruthyNum req.lon &&
      pyTruthyStr req.disaster_date && pyTruthyStr req.disaster_type) = false := by
    rcases h with h | h <;> simp [pyTruthyNum, h]
  constructor <;> simp [analyze_damage_endpoint, hfalse]

/-- A request with all four fields present and lat = 0 (on the equator). -/
def reqC10 : Request :=
  { lat := 0, lon := 5, disaster_date := dsA, disaster_type := "fire" }

/-- Witness for zero_coordinate_rejected: an equator request on the normal
provider is rejected as a missing-parameter error. -/
theorem zero_coordinate_rejected_witness :
    (reqC10.lat = 0 ∨ reqC10.lon = 0)
    ∧ (analyze_damage_endpoint provA hstEmpty reqC10).1
      = EndpointResult.badRequest missingParamsMsg
    ∧ (analyze_damage_endpoint provA hstEmpty reqC10).2 = hstEmpty :=
  ⟨Or.inl rfl,
   (zero_coordinate_rejected provA hstEmpty reqC10 (Or.inl rfl)).1,
   (zero_coordinate_rejected provA hstEmpty reqC10 (Or.inl rfl)).2⟩

/-- A raster is 0/1-valued on its unmasked pixels. -/
def Vals01 (r : Raster) : Prop := ∀ p ∈ r, ∀ v, p.val = some v → v = 0 ∨ v = 1

/-- Thresholding with gt yields a 0/1-valued raster. -/
lemma vals01_imgGt (r : Raster) (t : ℚ) : Vals01 (imgGt r t) := by
  intro p hp v hv
  obtain ⟨q, hq, rfl⟩ := List.mem_map.mp hp
  rcases hw : q.val with _ | w
  · simp [imgGt, hw] at hv
  · simp only [imgGt, hw, Option.map_some', Option.some.injEq] at hv
    split_ifs at hv with hcond
    · exact Or.inr hv.symm
    · exact Or.inl hv.symm

/-- Thresholding with lt yields a 0/1-valued raster. -/
lemma vals01_imgLt (r : Raster) (t : ℚ) : Vals01 (imgLt r t) := by
  intro p hp v hv
  obtain ⟨q, hq, rfl⟩ := List.mem_map.mp hp
  rcases hw : q.val with _ | w
  · simp [imgLt, hw] at hv
  · simp only [imgLt, hw, Option.map_some', Option.some.injEq] at hv
    split_ifs at hv with hcond
    · exact Or.inr hv.symm
    · exact Or.inl hv.symm

/-- A pointwise combination whose combinator is 0/1-valued yields a
0/1-valued raster. -/
lemma vals01_imgCombine (f : ℚ → ℚ → ℚ) (hf : ∀ a b, f a b = 0 ∨ f a b = 1) :
    ∀ (r s : Raster), Vals01 (imgCombine f r s)
  | [], s => by intro p hp; simp [imgCombine] at hp
  | p :: r, [] => by intro q hq; simp [imgCombine] at hq
  | p :: r, q :: s => by
    intro x hx v hv
    rcases List.mem_cons.mp hx with hx | hx
    · subst hx
      rcases ha : p.val with _ | a <;> rcases hb : q.val with _ | b <;>
        simp [ha, hb] at hv
      exact hv ▸ hf a b
    · exact vals01_imgCombine f hf r s x hx v hv

/-- Pixel areas of a pointwise combination are areas of the first raster. -/
lemma area_nonneg_imgCombine (f : ℚ → ℚ → ℚ) :
    ∀ (r s : Raster), (∀ p ∈ r, 0 ≤ p.area) →
      ∀ p ∈ imgCombine f r s, 0 ≤ p.area
  | [], s, h => by intro p hp; simp [imgCombine] at hp
  | p :: r, [], h => by intro q hq; simp [imgCombine] at hq
  | p :: r, q :: s, h => by
    intro x hx
    rcases List.mem_cons.mp hx with hx | hx
    · subst hx; exact h p (List.mem_cons_self _ _)
    · exact area_nonneg_imgCombine f r s
        (fun y hy => h y (List.mem_cons_of_mem _ hy)) x hx

/-- selfMask of a 0/1-valued raster carries only the value 1. -/
lemma selfMask_val_one {r : Raster} (h01 : Vals01 r) :
    ∀ p ∈ selfMask r, ∀ v, p.val = some v → v = 1 := by
  intro p hp v hv
  obtain ⟨q, hq, rfl⟩ := List.mem_map.mp hp
  rcases hw : q.val with _ | w
  · simp [selfMaskPx, hw] at hv
  · by_cases hz : w = 0
    · simp [selfMaskPx, hw, hz] at hv
    · simp only [selfMaskPx, hw] at hv
      rw [if_neg hz, Option.some.injEq] at hv
      rcases h01 q hq w hw with h0 | h1
      · exact absurd h0 hz
      · exact hv ▸ h1

/-- Sum bound for the masked-area reduction: over a 1-valued selfMask the
pixel-area sum is nonnegative and bounded by the total pixel area of the
mask raster. -/
lemma masked_sum_bounds :
    ∀ (s : Raster), (∀ p ∈ s, 0 ≤ p.area) →
    (∀ p ∈ selfMask s, ∀ v, p.val = some v → v = 1) →
    0 ≤ ((mulPixelArea (selfMask s)).filterMap RPixel.val).sum
    ∧ ((mulPixelArea (selfMask s)).filterMap RPixel.val).sum
        ≤ (s.map RPixel.area).sum
  | [], _, _ => by simp [selfMask, mulPixelArea]
  | p :: s, hpos, h1 => by
    have hpos' : ∀ q ∈ s, 0 ≤ q.area :=
      fun q hq => hpos q (List.mem_cons_of_mem _ hq)
    have h1' : ∀ q ∈ selfMask s, ∀ v, q.val = some v → v = 1 :=
      fun q hq => h1 q (List.mem_cons_of_mem _ hq)
    have ih := masked_sum_bounds s hpos' h1'
    have hp0 : 0 ≤ p.area := hpos p (List.mem_cons_self _ _)
    rcases hw : p.val with _ | w
    · have hhd : selfMaskPx p = { area := p.area, val := none } := by
        simp [selfMaskPx, hw]
      constructor
      · simpa [selfMask, mulPixelArea, hhd] using ih.1
      · have : ((mulPixelArea (selfMask (p :: s))).filterMap RPixel.val).sum
            = ((mulPixelArea (selfMask s)).filterMap RPixel.val).sum := by
          simp [selfMask, mulPixelArea, hhd]
        rw [this, List.map_cons, List.sum_cons]
        linarith [ih.2]
    · by_cases hz : w = 0
      · have hhd : selfMaskPx p = { area := p.area, val := none } := by
          simp [selfMaskPx, hw, hz]
        constructor
        · simpa [selfMask, mulPixelArea, hhd] using ih.1
        · have : ((mulPixelArea (selfMask (p :: s))).filterMap RPixel.val).sum
              = ((mulPixelArea (selfMask s)).filterMap RPixel.val).sum := by
            simp [selfMask, mulPixelArea, hhd]
          rw [this, List.map_cons, List.sum_cons]
          linarith [ih.2]
      · have hhd : selfMaskPx p = { area := p.area, val := some w } := by
          simp [selfMaskPx, hw, hz]
        have hw1 : w = 1 := by
          refine h1 (selfMaskPx p) (List.mem_cons_self _ _) w ?_
          rw [hhd]
        have : ((mulPixelArea (selfMask (p :: s))).filterMap RPixel.val).sum
            = w * p.area + ((mulPixelArea (selfMask s)).filterMap RPixel.val).sum := by
          simp [selfMask, mulPixelArea, hhd]
        rw [this, hw1, one_mul, List.map_cons, List.sum_cons]
        constructor
        · linarith [ih.1]
        · linarith [ih.2]

/-- A defined masked-area reduction is the filterMap sum. -/
lemma reduceRegionSum_eq {r : Raster} {m : ℚ}
    (h : reduceRegionSum r = some m) : m = (r.filterMap RPixel.val).sum := by
  unfold reduceRegionSum at h
  split_ifs at h
  exact (Option.some.injEq _ _ ▸ h).symm

/-- Map-style raster operators keep the pixel-area list: imgGt. -/
lemma map_area_imgGt (r : Raster) (t : ℚ) :
    (imgGt r t).map RPixel.area = r.map RPixel.area := by
  simp [imgGt, List.map_map]

/-- Map-style raster operators keep the pixel-area list: imgLt. -/
lemma map_area_imgLt (r : Raster) (t : ℚ) :
    (imgLt r t).map RPixel.area = r.map RPixel.area := by
  simp [imgLt, List.map_map]

/-- Pixel areas of the NDVI raster are the source pixel areas. -/
lemma map_area_ndvi (image : List SrcPixel) :
    (calculate_ndvi image).map RPixel.area = image.map SrcPixel.area := by
  simp [calculate_ndvi, List.map_map]

/-- Pixel areas of the NDWI raster are the source pixel areas. -/
lemma map_area_ndwi (image : List SrcPixel) :
    (ndwi_raster image).map RPixel.area = image.map SrcPixel.area := by
  simp [ndwi_raster, List.map_map]

/-- The area sum of a pointwise combination is at most the area sum of the
first raster (zipWith truncates; the dropped areas are nonnegative). -/
lemma sum_map_area_imgCombine (f : ℚ → ℚ → ℚ) :
    ∀ (r s : Raster), (∀ p ∈ r, 0 ≤ p.area) →
      ((imgCombine f r s).map RPixel.area).sum ≤ (r.map RPixel.area).sum
  | r, [], h => by
    simp only [imgCombine, List.zipWith_nil_right, List.map_nil, List.sum_nil]
    refine List.sum_nonneg ?_
    intro a ha
    obtain ⟨p, hp, rfl⟩ := List.mem_map.mp ha
    exact h p hp
  | [], _ :: _, _ => by simp [imgCombine]
  | p :: r, q :: s, h => by
    have ih := sum_map_area_imgCombine f r s
      (fun y hy => h y (List.mem_cons_of_mem _ hy))
    simp only [imgCombine, List.zipWith_cons_cons, List.map_cons, List.sum_cons]
    exact add_le_add_left ih p.area

/-- Rounding to two decimals stays inside [0, 100]. -/
lemma round2_bounds (x : ℚ) (h0 : 0 ≤ x) (h1 : x ≤ 100) :
    0 ≤ round2 x ∧ round2 x ≤ 100 := by
  constructor
  · have hr : (0 : ℤ) ≤ round (x * 100) := by
      rw [round_eq]
      refine Int.le_floor.mpr ?_
      push_cast
      linarith
    unfold round2
    positivity
  · have hr : round (x * 100) ≤ 10000 := by
      rw [round_eq]
      have : ⌊x * 100 + 1 / 2⌋ < 10001 := by
        refine Int.floor_lt.mpr ?_
        push_cast
        linarith
      omega
    unfold round2
    rw [div_le_iff₀ (by norm_num : (0 : ℚ) < 100)]
    calc ((round (x * 100) : ℤ) : ℚ) ≤ ((10000 : ℤ) : ℚ) := by exact_mod_cast hr
    _ = 100 * 100 := by norm_num

/-- round2 always produces an integer number of hundredths. -/
lemma round2_form (x : ℚ) : ∃ n : ℤ, round2 x = (n : ℚ) / 100 :=
  ⟨round (x * 100), rfl⟩

/-- Bound for the fire/landslide masked-area sum: between 0 and the total
pixel area of the before image. -/
lemma gtmask_meters_bounds (ib ia : List SrcPixel) (t m : ℚ)
    (hpos : ∀ p ∈ ib, 0 ≤ p.area)
    (hm : reduceRegionSum
      (mulPixelArea (selfMask (imgGt (dndvi_raster ib ia) t))) = some m) :
    0 ≤ m ∧ m ≤ (ib.map SrcPixel.area).sum := by
  have hposndvi : ∀ p ∈ calculate_ndvi ib, 0 ≤ p.area := by
    intro p hp
    obtain ⟨q, hq, rfl⟩ := List.mem_map.mp hp
    exact hpos q hq
  have hposd : ∀ p ∈ dndvi_raster ib ia, 0 ≤ p.area :=
    area_nonneg_imgCombine _ _ _ hposndvi
  have hposs : ∀ p ∈ imgGt (dndvi_raster ib ia) t, 0 ≤ p.area := by
    intro p hp
    obtain ⟨q, hq, rfl⟩ := List.mem_map.mp hp
    exact hposd q hq
  have hones := selfMask_val_one (vals01_imgGt (dndvi_raster ib ia) t)
  have hb := masked_sum_bounds _ hposs hones
  have hme := reduceRegionSum_eq hm
  rw [hme]
  refine ⟨hb.1, le_trans hb.2 ?_⟩
  rw [map_area_imgGt]
  calc ((dndvi_raster ib ia).map RPixel.area).sum
      ≤ ((calculate_ndvi ib).map RPixel.area).sum :=
        sum_map_area_imgCombine _ _ _ hposndvi
    _ = (ib.map SrcPixel.area).sum := by rw [map_area_ndvi]

/-- Bound for the flood masked-area sum: between 0 and the total pixel area
of the before image. -/
lemma floodmask_meters_bounds (ib ia : List SrcPixel) (m : ℚ)
    (hpos : ∀ p ∈ ib, 0 ≤ p.area)
    (hm : reduceRegionSum (mulPixelArea (flooded_area_mask ib ia)) = some m) :
    0 ≤ m ∧ m ≤ (ib.map SrcPixel.area).sum := by
  have hposndwi : ∀ p ∈ ndwi_raster ib, 0 ≤ p.area := by
    intro p hp
    obtain ⟨q, hq, rfl⟩ := List.mem_map.mp hp
    exact hpos q hq
  have hposlt : ∀ p ∈ imgLt (ndwi_raster ib) water_threshold, 0 ≤ p.area := by
    intro p hp
    obtain ⟨q, hq, rfl⟩ := List.mem_map.mp hp
    exact hposndwi q hq
  have hposand : ∀ p ∈ imgAnd (imgLt (ndwi_raster ib) water_threshold)
      (imgGt (ndwi_raster ia) water_threshold), 0 ≤ p.area :=
    area_nonneg_imgCombine _ _ _ hposlt
  have h01 : Vals01 (imgAnd (imgLt (ndwi_raster ib) water_threshold)
      (imgGt (ndwi_raster ia) water_threshold)) := by
    refine vals01_imgCombine _ (fun a b => ?_) _ _
    by_cases hc : a ≠ 0 ∧ b ≠ 0 <;> simp [hc]
  have hones := selfMask_val_one h01
  have hb := masked_sum_bounds _ hposand hones
  have hme := reduceRegionSum_eq hm
  rw [hme]
  refine ⟨hb.1, le_trans hb.2 ?_⟩
  calc ((imgAnd (imgLt (ndwi_raster ib) water_threshold)
        (imgGt (ndwi_raster ia) water_threshold)).map RPixel.area).sum
      ≤ ((imgLt (ndwi_raster ib) water_threshold).map RPixel.area).sum :=
        sum_map_area_imgCombine _ _ _ hposlt
    _ = ((ndwi_raster ib).map RPixel.area).sum := by rw [map_area_imgLt]
    _ = (ib.map SrcPixel.area).sum := by rw [map_area_ndwi]

/-- Bounds of the fire analysis result under a consistent provider. -/
lemma analyze_fire_bounds (ib ia : List SrcPixel) (aoi : AOI)
    (hA : 0 < aoi.area) (hpos : ∀ p ∈ ib, 0 ≤ p.area)
    (hsum : (ib.map SrcPixel.area).sum ≤ aoi.area) :
    0 ≤ (analyze_fire_damage ib ia aoi).1
    ∧ (analyze_fire_damage ib ia aoi).1 ≤ 100
    ∧ ∃ n : ℤ, (analyze_fire_damage ib ia aoi).1 = (n : ℚ) / 100 := by
  rcases hm : reduceRegionSum (mulPixelArea (burned_area_mask ib ia)) with _ | m
  · refine ⟨?_, ?_, ⟨0, ?_⟩⟩ <;> simp [analyze_fire_damage, hm]
  · have hb := gtmask_meters_bounds ib ia burn_threshold m hpos hm
    have hm2 : m ≤ aoi.area := le_trans hb.2 hsum
    have hx0 : 0 ≤ m / aoi.area * 100 :=
      mul_nonneg (div_nonneg hb.1 (le_of_lt hA)) (by norm_num)
    have hx1 : m / aoi.area * 100 ≤ 100 := by
      have hd : m / aoi.area ≤ 1 := (div_le_one hA).mpr hm2
      linarith
    have hr := round2_bounds _ hx0 hx1
    refine ⟨?_, ?_, ?_⟩ <;> simp only [analyze_fire_damage, hm]
    · exact hr.1
    · exact hr.2
    · exact round2_form _

/-- Bounds of the flood analysis result under a consistent provider. -/
lemma analyze_flood_bounds (ib ia : List SrcPixel) (aoi : AOI)
    (hA : 0 < aoi.area) (hpos : ∀ p ∈ ib, 0 ≤ p.area)
    (hsum : (ib.map SrcPixel.area).sum ≤ aoi.area) :
    0 ≤ (analyze_flood_damage ib ia aoi).1
    ∧ (analyze_flood_damage ib ia aoi).1 ≤ 100
    ∧ ∃ n : ℤ, (analyze_flood_damage ib ia aoi).1 = (n : ℚ) / 100 := by
  rcases hm : reduceRegionSum (mulPixelArea (flooded_area_mask ib ia)) with _ | m
  · refine ⟨?_, ?_, ⟨0, ?_⟩⟩ <;> simp [analyze_flood_damage, hm]
  · have hb := floodmask_meters_bounds ib ia m hpos hm
    have hm2 : m ≤ aoi.area := le_trans hb.2 hsum
    have hx0 : 0 ≤ m / aoi.area * 100 :=
      mul_nonneg (div_nonneg hb.1 (le_of_lt hA)) (by norm_num)
    have hx1 : m / aoi.area * 100 ≤ 100 := by
      have hd : m / aoi.area ≤ 1 := (div_le_one hA).mpr hm2
      linarith
    have hr := round2_bounds _ hx0 hx1
    refine ⟨?_, ?_, ?_⟩ <;> simp only [analyze_flood_damage, hm]
    · exact hr.1
    · exact hr.2
    · exact round2_form _

/-- Bounds of the landslide analysis result under a consistent provider. -/
lemma analyze_landslide_bounds (ib ia : List SrcPixel) (aoi : AOI)
    (hA : 0 < aoi.area) (hpos : ∀ p ∈ ib, 0 ≤ p.area)
    (hsum : (ib.map SrcPixel.area).sum ≤ aoi.area) :
    0 ≤ (analyze_landslide_damage ib ia aoi).1
    ∧ (analyze_landslide_damage ib ia aoi).1 ≤ 100
    ∧ ∃ n : ℤ, (analyze_landslide_damage ib ia aoi).1 = (n : ℚ) / 100 := by
  rcases hm : reduceRegionSum (mulPixelArea (slide_area_mask ib ia)) with _ | m
  · refine ⟨?_, ?_, ⟨0, ?_⟩⟩ <;> simp [analyze_landslide_damage, hm]
  · have hb := gtmask_meters_bounds ib ia slide_threshold m hpos hm
    have hm2 : m ≤ aoi.area := le_trans hb.2 hsum
    have hx0 : 0 ≤ m / aoi.area * 100 :=
      mul_nonneg (div_nonneg hb.1 (le_of_lt hA)) (by norm_num)
    have hx1 : m / aoi.area * 100 ≤ 100 := by
      have hd : m / aoi.area ≤ 1 := (div_le_one hA).mpr hm2
      linarith
    have hr := round2_bounds _ hx0 hx1
    refine ⟨?_, ?_, ?_⟩ <;> simp only [analyze_landslide_damage, hm]
    · exact hr.1
    · exact hr.2
    · exact round2_form _

/-- The before partition only holds catalog images. -/
lemma collection_before_subset {prov : Provider} {d : ℤ} {x : SatImage}
    (hx : x ∈ collection_before prov d) : x ∈ prov.catalog :=
  (mem_collection_before.mp hx).1

/-- Clipping keeps areas nonnegative and cannot increase the pixel-area sum
beyond the catalog image bound. -/
lemma clipped_pixels_facts (prov : Provider) (img : SatImage)
    (hmem : img ∈ prov.catalog)
    (hpos : ∀ i ∈ prov.catalog, ∀ p ∈ i.pixels, 0 ≤ p.area)
    (hsum : ∀ i ∈ prov.catalog, (i.pixels.map SrcPixel.area).sum ≤ prov.aoiArea) :
    (∀ p ∈ (clipImage img).pixels, 0 ≤ p.area)
    ∧ ((clipImage img).pixels.map SrcPixel.area).sum ≤ prov.aoiArea := by
  constructor
  · intro p hp
    exact hpos img hmem p (List.mem_of_mem_filter hp)
  · have hsub : List.Sublist ((clipImage img).pixels.map SrcPixel.area)
        (img.pixels.map SrcPixel.area) :=
      List.Sublist.map _ (List.filter_sublist _)
    refine le_trans (List.Sublist.sum_le_sum hsub ?_) (hsum img hmem)
    intro a ha
    obtain ⟨p, hp, rfl⟩ := List.mem_map.mp ha
    exact hpos img hmem p hp

/-- C2 as amended: whenever the provider geometry is consistent — positive
AOI area and no catalog image whose pixel-area sum (the rasterized area)
exceeds the geometric AOI area — every successful analysis, for every
disaster type, returns a damage_percent in [0, 100] in whole hundredths
(round to 2 decimals).  Without the consistency hypothesis the ratio of the
pixel-sum to the geometric area can exceed 1 (rasterization error), see the
counterexample. -/
theorem damage_percent_bounds (prov : Provider) (lat lon : ℚ) (ds dt : String)
    (r : GeeResult)
    (hA : 0 < prov.aoiArea)
    (hpos : ∀ img ∈ prov.catalog, ∀ p ∈ img.pixels, 0 ≤ p.area)
    (hsum : ∀ img ∈ prov.catalog,
      (img.pixels.map SrcPixel.area).sum ≤ prov.aoiArea)
    (hok : get_satellite_imagery prov lat lon ds dt = Except.ok r) :
    0 ≤ r.damage_percent ∧ r.damage_percent ≤ 100
    ∧ ∃ n : ℤ, r.damage_percent = (n : ℚ) / 100 := by
  simp only [get_satellite_imagery] at hok
  by_cases hc : (collection_before prov (prov.dateOf ds)).length = 0
      ∨ (collection_after prov (prov.dateOf ds)).length = 0
  · rw [if_pos hc] at hok
    exact Except.noConfusion hok
  · rw [if_neg hc] at hok
    have hbne : collection_before prov (prov.dateOf ds) ≠ [] := by
      intro hnil
      exact hc (Or.inl (List.length_eq_zero.mpr hnil))
    have hbmem : image_before_obj prov (prov.dateOf ds) ∈ prov.catalog :=
      collection_before_subset ((headI_sortByTimeDesc_spec _ hbne).1)
    have hfacts := clipped_pixels_facts prov _ hbmem hpos hsum
    split_ifs at hok
    · rw [Except.ok.injEq] at hok
      subst hok
      exact analyze_fire_bounds _ _ _ hA hfacts.1 hfacts.2
    · rw [Except.ok.injEq] at hok
      subst hok
      exact analyze_flood_bounds _ _ _ hA hfacts.1 hfacts.2
    · rw [Except.ok.injEq] at hok
      subst hok
      exact analyze_flood_bounds _ _ _ hA hfacts.1 hfacts.2
    · rw [Except.ok.injEq] at hok
      subst hok
      exact analyze_landslide_bounds _ _ _ hA hfacts.1 hfacts.2

/-- The fire result on provA (the value get_satellite_imagery returns). -/
def rA : GeeResult :=
  mkResult (image_before provA dsA) (image_after provA dsA)
    (analyze_fire_damage (image_before provA dsA).pixels
      (image_after provA dsA).pixels { area := provA.aoiArea })
    vis_params_fire

/-- Witness for damage_percent_bounds: the fire analysis on provA succeeds
with damage_percent 50, inside [0, 100]. -/
theorem damage_percent_bounds_witness :
    (0 : ℚ) < provA.aoiArea
    ∧ get_satellite_imagery provA 1 1 dsA ("fire") = Except.ok rA
    ∧ 0 ≤ rA.damage_percent ∧ rA.damage_percent ≤ 100
    ∧ rA.damage_percent = 50 := by
  have hcond : ¬((collection_before provA (provA.dateOf dsA)).length = 0
      ∨ (collection_after provA (provA.dateOf dsA)).length = 0) := by decide
  have hok : get_satellite_imagery provA 1 1 dsA ("fire") = Except.ok rA := by
    simp only [get_satellite_imagery]
    rw [if_neg hcond, if_pos trivial]
    rfl
  have hpos : ∀ img ∈ provA.catalog, ∀ p ∈ img.pixels, 0 ≤ p.area := by decide
  have hsum : ∀ img ∈ provA.catalog,
      (img.pixels.map SrcPixel.area).sum ≤ provA.aoiArea := by
    intro img himg
    simp only [provA, List.mem_cons, List.not_mem_nil, or_false] at himg
    rcases himg with rfl | rfl <;>
      norm_num [imgBefore1, imgAfter1, provA]
  have h := damage_percent_bounds provA 1 1 dsA ("fire") rA (by decide)
    hpos hsum hok
  have e1 : image_before provA dsA = imgBefore1 := by decide
  have e2 : image_after provA dsA = imgAfter1 := by decide
  have hperc : rA.damage_percent = 50 := by
    show (analyze_fire_damage (image_before provA dsA).pixels
      (image_after provA dsA).pixels { area := provA.aoiArea }).1 = 50
    rw [e1, e2]
    norm_num [analyze_fire_damage, burned_area_mask, dndvi_raster, calculate_ndvi,
      imgSub, imgCombine, imgGt, selfMask, selfMaskPx, mulPixelArea,
      reduceRegionSum, normalizedDifference, imgBefore1, imgAfter1, provA,
      burn_threshold, round2, List.filterMap]
  exact ⟨by decide, hok, h.1, h.2.1, hperc⟩

/-- The damage percentage of a pipeline outcome, when it succeeded. -/
def resultPercent : Except GeeError GeeResult → Option ℚ
  | Except.ok r => some r.damage_percent
  | Except.error _ => none

/-- A before image whose single in-AOI pixel has rasterized area 200,
larger than the geometric AOI area of provOver. -/
def imgOverBefore : SatImage :=
  { timestamp := -1, cloud := 0, inBounds := true,
    pixels := [{ area := 200, b3 := 0, b4 := 0, b8 := 1, inAOI := true }] }

/-- The matching after image: full vegetation loss on that pixel. -/
def imgOverAfter : SatImage :=
  { timestamp := 0, cloud := 0, inBounds := true,
    pixels := [{ area := 200, b3 := 0, b4 := 1, b8 := 0, inAOI := true }] }

/-- A provider whose rasterized pixel area (200) exceeds the geometric AOI
area (100) — the rasterization-error regime the spec flags. -/
def provOver : Provider :=
  { catalog := [imgOverBefore, imgOverAfter], aoiArea := 100,
    dateOf := fun _ => 0 }

/-- Counterexample to C2 as stated: nothing in the code clamps the ratio of
the pixel-level masked-area sum to the geometric AOI area, so on provOver
the fire analysis succeeds with damage_percent 200, outside [0, 100]. -/
theorem damage_percent_overshoot_counterexample :
    resultPercent (get_satellite_imagery provOver 0 0 dsA ("fire")) = some 200
    ∧ ¬ (200 : ℚ) ≤ 100 := by
  have hcond : ¬((collection_before provOver (provOver.dateOf dsA)).length = 0
      ∨ (collection_after provOver (provOver.dateOf dsA)).length = 0) := by decide
  have hok : get_satellite_imagery provOver 0 0 dsA ("fire")
      = Except.ok (mkResult (image_before provOver dsA) (image_after provOver dsA)
          (analyze_fire_damage (image_before provOver dsA).pixels
            (image_after provOver dsA).pixels { area := provOver.aoiArea })
          vis_params_fire) := by
    simp only [get_satellite_imagery]
    rw [if_neg hcond, if_pos trivial]
  have e1 : image_before provOver dsA = imgOverBefore := by decide
  have e2 : image_after provOver dsA = imgOverAfter := by decide
  constructor
  · rw [hok]
    show some (analyze_fire_damage (image_before provOver dsA).pixels
      (image_after provOver dsA).pixels { area := provOver.aoiArea }).1 = some 200
    rw [e1, e2]
    norm_num [analyze_fire_damage, burned_area_mask, dndvi_raster, calculate_ndvi,
      imgSub, imgCombine, imgGt, selfMask, selfMaskPx, mulPixelArea,
      reduceRegionSum, normalizedDifference, imgOverBefore, imgOverAfter, provOver,
      burn_threshold, round2, List.filterMap]
  · norm_num

/-- getD at the address of the last appended element. -/
lemma getD_append_singleton (l : List Dict) (d : Dict) :
    (l ++ [d]).getD l.length [] = d := by
  induction l with
  | nil => rfl
  | cons a l ih => simp only [List.cons_append, List.length_cons, List.getD_cons_succ]; exact ih

/-- set at the address of the last appended element. -/
lemma set_append_singleton (l : List Dict) (d e : Dict) :
    (l ++ [d]).set l.length e = l ++ [e] := by
  induction l with
  | nil => rfl
  | cons a l ih =>
    simp only [List.cons_append, List.length_cons, List.set]
    exact congrArg (fun t => a :: t) ih

/-- Assigning a key absent from the dict appends it. -/
lemma dictInsert_fresh (d : Dict) (k : String) (v : Val)
    (h : (d.any fun kv => kv.1 == k) = false) :
    dictInsert d k v = d ++ [(k, v)] := by
  simp [dictInsert, h]

/-- The constructed response dict has no risk_context key. -/
lemma mkReportDict_fresh (req : Request) (status : String) (r : GeeResult) :
    ((mkReportDict req status r).any fun kv => kv.1 == "risk_context") = false := by
  simp [mkReportDict]

/-- Looking up risk_context in the constructed response dict gives nothing. -/
lemma dictLookup_mkReportDict_none (req : Request) (status : String)
    (r : GeeResult) :
    dictLookup (mkReportDict req status r) ("risk_context") = none := by
  simp [dictLookup, mkReportDict, List.find?]

/-- Appending a fresh key does not change other lookups. -/
lemma dictLookup_append_fresh (d : Dict) (a : String) (v : Val) (k : String)
    (h : k ≠ a) :
    dictLookup (d ++ [(a, v)]) k = dictLookup d k := by
  have ha : (a == k) = false := beq_eq_false_iff_ne.mpr (Ne.symm h)
  induction d with
  | nil => simp [dictLookup, List.find?, ha]
  | cons kv d ih =>
    by_cases hp : (kv.1 == k) = true
    · simp [dictLookup, List.find?, hp]
    · simp only [Bool.not_eq_true] at hp
      simp only [dictLookup, List.cons_append, List.find?, hp] at ih ⊢
      exact ih

/-- cache.set followed by cache.get returns the stored value. -/
lemma cacheGet_cacheSet (c : List (String × Dict)) (k : String) (v : Dict) :
    cacheGet (cacheSet c k v) k = some v := by
  simp [cacheGet, cacheSet, List.find?]

/-- The response dict after the handler added the risk-context key in place. -/
def enrichedReport (req : Request) (r : GeeResult) : Dict :=
  mkReportDict req (classify_status r.damage_percent) r
    ++ [("risk_context",
         Val.str (risk_context req.disaster_type req.lat req.lon))]

/-- Computation of the success arm: the one freshly allocated dict is
mutated in place into the enriched report; the return value, the heap cell
and the cached value are all that same enriched dict. -/
lemma endpointSuccess_eq (st : HState) (req : Request) (r : GeeResult) :
    endpointSuccess st req r
      = (EndpointResult.ok (enrichedReport req r),
         { heap := st.heap ++ [enrichedReport req r],
           cache := cacheSet st.cache (cache_key req) (enrichedReport req r) }) := by
  simp only [endpointSuccess]
  rw [getD_append_singleton,
    dictInsert_fresh _ _ _ (mkReportDict_fresh req _ r),
    set_append_singleton, getD_append_singleton]
  rfl

/-- C9 as amended: on every uncached well-formed request whose pipeline
succeeds, the handler allocates exactly one response dict; it then adds the
risk_context key to that same dict object in place (no copy is made — the
heap still holds exactly the one allocation, now enriched), the originally
constructed fields are never modified, and the cache and the 200 response
both carry that same enriched dict. -/
theorem report_mutation (prov : Provider) (st : HState) (req : Request)
    (r : GeeResult)
    (ht : (pyTruthyNum req.lat && pyTruthyNum req.lon &&
          pyTruthyStr req.disaster_date && pyTruthyStr req.disaster_type) = true)
    (hm : pyTruthyDictOpt (cacheGet st.cache (cache_key req)) = false)
    (hok : get_satellite_imagery prov req.lat req.lon req.disaster_date
        req.disaster_type = Except.ok r) :
    (analyze_damage_endpoint prov st req).2.heap
      = st.heap ++ [enrichedReport req r]
    ∧ dictLookup (mkReportDict req (classify_status r.damage_percent) r)
        ("risk_context") = none
    ∧ (analyze_damage_endpoint prov st req).1
      = EndpointResult.ok (enrichedReport req r)
    ∧ cacheGet (analyze_damage_endpoint prov st req).2.cache (cache_key req)
      = some (enrichedReport req r)
    ∧ (∀ k2 : String, k2 ≠ "risk_context" →
        dictLookup (enrichedReport req r) k2
          = dictLookup (mkReportDict req (classify_status r.damage_percent) r) k2) := by
  have hend : analyze_damage_endpoint prov st req = endpointSuccess st req r := by
    simp [analyze_damage_endpoint, ht, hm, hok]
  rw [hend, endpointSuccess_eq]
  refine ⟨rfl, dictLookup_mkReportDict_none _ _ _, rfl, cacheGet_cacheSet _ _ _,
    fun k2 hk2 => dictLookup_append_fresh _ _ _ _ hk2⟩

/-- The flood result on provA (the value get_satellite_imagery returns). -/
def rC9 : GeeResult :=
  mkResult (image_before provA dsA) (image_after provA dsA)
    (analyze_flood_damage (image_before provA dsA).pixels
      (image_after provA dsA).pixels { area := provA.aoiArea })
    vis_params_flood

/-- The flood pipeline succeeds on provA with result rC9. -/
lemma floodA_ok :
    get_satellite_imagery provA reqC6.lat reqC6.lon reqC6.disaster_date
      reqC6.disaster_type = Except.ok rC9 := by
  have hcond : ¬((collection_before provA (provA.dateOf dsA)).length = 0
      ∨ (collection_after provA (provA.dateOf dsA)).length = 0) := by decide
  show get_satellite_imagery provA 1 1 dsA ("flood") = Except.ok rC9
  simp only [get_satellite_imagery]
  rw [if_neg hcond, if_neg (by decide : ¬("flood" = "fire")), if_pos trivial]
  rfl

/-- Counterexample to C9: running the flood request on provA, exactly one
dict is ever allocated, and the dict at its address ends up holding the
risk_context key even though the dict as constructed does not hold it — the
risk-context annotation mutated the report object in place instead of
being applied to a copy. -/
theorem report_mutated_counterexample :
    (analyze_damage_endpoint provA hstEmpty reqC6).2.heap.length = 1
    ∧ dictLookup ((analyze_damage_endpoint provA hstEmpty reqC6).2.heap.getD 0 [])
        ("risk_context")
      = some (Val.str "Property is outside of known high-risk flood zones.")
    ∧ dictLookup (mkReportDict reqC6 (classify_status rC9.damage_percent) rC9)
        ("risk_context") = none := by
  have ht : (pyTruthyNum reqC6.lat && pyTruthyNum reqC6.lon &&
      pyTruthyStr reqC6.disaster_date && pyTruthyStr reqC6.disaster_type) = true := by
    decide
  have hm : pyTruthyDictOpt (cacheGet hstEmpty.cache (cache_key reqC6)) = false := by
    decide
  have hend : analyze_damage_endpoint provA hstEmpty reqC6
      = endpointSuccess hstEmpty reqC6 rC9 := by
    simp [analyze_damage_endpoint, ht, hm, floodA_ok]
  rw [hend, endpointSuccess_eq]
  refine ⟨rfl, ?_, dictLookup_mkReportDict_none _ _ _⟩
  have hrisk : risk_context reqC6.disaster_type reqC6.lat reqC6.lon
      = "Property is outside of known high-risk flood zones." := by decide
  show dictLookup (enrichedReport reqC6 rC9) ("risk_context")
    = some (Val.str "Property is outside of known high-risk flood zones.")
  simp [enrichedReport, dictLookup, mkReportDict, List.find?, hrisk]

/-- Witness for report_mutation on the concrete flood request. -/
theorem report_mutation_witness :
    (analyze_damage_endpoint provA hstEmpty reqC6).2.heap
      = hstEmpty.heap ++ [enrichedReport reqC6 rC9]
    ∧ dictLookup (mkReportDict reqC6 (classify_status rC9.damage_percent) rC9)
        ("risk_context") = none
    ∧ (analyze_damage_endpoint provA hstEmpty reqC6).1
      = EndpointResult.ok (enrichedReport reqC6 rC9) := by
  have h := report_mutation provA hstEmpty reqC6 rC9 (by decide) (by decide)
    floodA_ok
  exact ⟨h.1, h.2.1, h.2.2.1⟩

end AlphaEarth
